import Mathlib

/-!
Verification of the nexus-iq core against its natural-language specification.

The Python source is shallowly embedded: each definition below mirrors one
function or data shape of `src/app/...`.  Machine integers are modelled as
`Int`/`Nat` (no overflow is relevant here), Python exceptions as explicit
error constructors, `datetime` values as microseconds since the epoch
(Python's `datetime`/`timedelta` resolution), and the database session as an
explicit record of table contents plus an operation log where a claim needs
it.
-/

namespace NexusIQ

/-! ## Freshness policy — `is_summoner_ttl_expired`
    (src/app/internal/controllers/summoners.py, lines 48-53)

`SUMMONER_TTL_MINUTES = 0.5` (src/app/dependencies.py line 17);
`timedelta(minutes=0.5)` normalises to 30 seconds = 30 000 000 microseconds. -/

def SUMMONER_TTL_TIMEDELTA_US : Int := 30 * 1000000

/-- `current_time - summoner.updated_at >= timedelta(minutes=SUMMONER_TTL_MINUTES)`
with the TTL left as a parameter (the source reads it from configuration). -/
def isSummonerTtlExpiredWith (ttlUs nowUs updatedAtUs : Int) : Bool :=
  decide (nowUs - updatedAtUs ≥ ttlUs)

/-- `is_summoner_ttl_expired` with the configured TTL of 0.5 minutes. -/
def isSummonerTtlExpired (nowUs updatedAtUs : Int) : Bool :=
  isSummonerTtlExpiredWith SUMMONER_TTL_TIMEDELTA_US nowUs updatedAtUs

/-- Modelled from the spec: `isStale(now, lastSyncedAt, ttl) = (now - lastSyncedAt) >= ttl`
(spec section 4.5), to be compared with the code's `is_summoner_ttl_expired`. -/
def isStale (now lastSyncedAt ttl : Int) : Bool :=
  decide (now - lastSyncedAt ≥ ttl)

/-! ## Transport client — status mapping and retry
    (src/app/internal/riot_api/base.py) -/

/-- Python `int(s)`: strip surrounding whitespace, optional single sign,
then ASCII digits optionally separated by single underscores. -/
def pyIsDigit (c : Char) : Bool := '0' ≤ c && c ≤ '9'

def pyDigitVal (c : Char) : Nat := c.toNat - 48

/-- Python `str.strip()` whitespace test (ASCII whitespace). -/
def pyIsSpace (c : Char) : Bool :=
  c = ' ' || c = '\t' || c = '\n' || c = '\r' || c = '\x0b' || c = '\x0c'

/-- Python `str.strip()` on the character list of a string. -/
def pyStrip (l : List Char) : List Char :=
  ((l.dropWhile pyIsSpace).reverse.dropWhile pyIsSpace).reverse

/-- Python `str.strip()`. -/
def pyStripStr (s : String) : String := String.mk (pyStrip s.toList)

/-- Python `str.lower()` on one character (ASCII; the routing codes and
platform values are all ASCII). -/
def pyLowerChar (c : Char) : Char :=
  if 'A' ≤ c && c ≤ 'Z' then Char.ofNat (c.toNat + 32) else c

/-- Python `str.lower()`. -/
def pyLower (s : String) : String := String.mk (s.toList.map pyLowerChar)

def pyIntDigitsAux : List Char → Nat → Option Nat
  | [], acc => some acc
  | c :: rest, acc =>
    if pyIsDigit c then pyIntDigitsAux rest (acc * 10 + pyDigitVal c)
    else if c = '_' then
      match rest with
      | [] => none
      | d :: rest2 =>
        if pyIsDigit d then pyIntDigitsAux rest2 (acc * 10 + pyDigitVal d) else none
    else none

def pyIntDigits : List Char → Option Nat
  | [] => none
  | c :: rest => if pyIsDigit c then pyIntDigitsAux rest (pyDigitVal c) else none

def pyInt (s : String) : Option Int :=
  match pyStrip s.toList with
  | '+' :: rest => (pyIntDigits rest).map (fun n => (n : Int))
  | '-' :: rest => (pyIntDigits rest).map (fun n => -(n : Int))
  | l => (pyIntDigits l).map (fun n => (n : Int))

/-- Outcome of `RiotAPIBase._check_response_status` (base.py lines 238-287).
`pyValueError` is the `ValueError` escaping from `int(retry_after)` when the
`Retry-After` header is non-empty but not an integer literal. -/
inductive CheckOutcome where
  | ok : CheckOutcome
  | authenticationError : CheckOutcome
  | notFoundError : CheckOutcome
  | rateLimitError (retryAfter : Option Int) : CheckOutcome
  | serverError (statusCode : Nat) : CheckOutcome
  | unexpectedStatusError (statusCode : Nat) : CheckOutcome
  | pyValueError : CheckOutcome
deriving DecidableEq, Repr

/-- `_check_response_status`.  `response.ok` in aiohttp is `status < 400`;
the header argument is `response.headers.get("Retry-After")`. -/
def checkResponseStatus (status : Nat) (retryAfterHeader : Option String) : CheckOutcome :=
  if status < 400 then CheckOutcome.ok
  else if status = 401 then CheckOutcome.authenticationError
  else if status = 403 then CheckOutcome.authenticationError
  else if status = 404 then CheckOutcome.notFoundError
  else if status = 429 then
    match retryAfterHeader with
    | none => CheckOutcome.rateLimitError none
    | some h =>
      if h = "" then CheckOutcome.rateLimitError none
      else
        match pyInt h with
        | some n => CheckOutcome.rateLimitError (some n)
        | none => CheckOutcome.pyValueError
  else if 500 ≤ status && status < 600 then CheckOutcome.serverError status
  else CheckOutcome.unexpectedStatusError status

/-- A response as seen by the retry middleware: its status and its
`Retry-After` header, if any. -/
structure HttpResponse where
  status : Nat
  retryAfterHeader : Option String
deriving DecidableEq, Repr

/-- aiohttp `ClientResponse.ok`: true iff `status < 400`. -/
def responseOk (r : HttpResponse) : Bool := r.status < 400

/-- The fixed bound of `for _ in range(3)` in `retry_middleware` (base.py line 40). -/
def RETRY_ATTEMPTS : Nat := 3

/-- The loop body of `retry_middleware`: `handler i` is the response of the
`i`-th attempt; returns the response handed back together with the number of
attempts made.  When the fuel runs out the last response is returned as-is. -/
def retryLoop (handler : Nat → HttpResponse) : Nat → Nat → HttpResponse × Nat
  | i, 0 => (handler i, i)
  | i, fuel + 1 =>
    let r := handler i
    if responseOk r then (r, i + 1)
    else if fuel = 0 then (r, i + 1)
    else retryLoop handler (i + 1) fuel

/-- `retry_middleware` (base.py lines 36-45): up to three attempts, returning
the first `ok` response, else the third response. -/
def retryMiddleware (handler : Nat → HttpResponse) : HttpResponse × Nat :=
  retryLoop handler 0 RETRY_ATTEMPTS

/-! ## Routing table
    (src/app/internal/riot_api/config.py lines 41-94 and
     src/app/internal/riot_api/clients/match_client.py lines 143-176) -/

inductive RiotPlatform where
  | br1 | eun1 | euw1 | jp1 | kr | la1 | la2 | na1
  | oc1 | ph2 | ru | sg2 | th2 | tr1 | tw2 | vn2
deriving DecidableEq, Repr

inductive RiotRegion where
  | americas | europe | asia | sea
deriving DecidableEq, Repr

/-- The string value of each `RiotPlatform` member (`str`-valued enum). -/
def RiotPlatform.value : RiotPlatform → String
  | .br1 => "br1" | .eun1 => "eun1" | .euw1 => "euw1" | .jp1 => "jp1"
  | .kr => "kr" | .la1 => "la1" | .la2 => "la2" | .na1 => "na1"
  | .oc1 => "oc1" | .ph2 => "ph2" | .ru => "ru" | .sg2 => "sg2"
  | .th2 => "th2" | .tr1 => "tr1" | .tw2 => "tw2" | .vn2 => "vn2"

def REGION_TO_PLATFORM : List (String × RiotPlatform) :=
  [("br", .br1), ("br1", .br1),
   ("eun", .eun1), ("eun1", .eun1), ("eune", .eun1),
   ("euw", .euw1), ("euw1", .euw1),
   ("jp", .jp1), ("jp1", .jp1),
   ("kr", .kr),
   ("la1", .la1), ("la2", .la2), ("lan", .la1), ("las", .la2),
   ("na", .na1), ("na1", .na1),
   ("oc", .oc1), ("oc1", .oc1), ("oce", .oc1),
   ("ph", .ph2), ("ph2", .ph2),
   ("ru", .ru),
   ("sg", .sg2), ("sg2", .sg2),
   ("th", .th2), ("th2", .th2),
   ("tr", .tr1), ("tr1", .tr1),
   ("tw", .tw2), ("tw2", .tw2),
   ("vn", .vn2), ("vn2", .vn2)]

def PLATFORM_TO_REGION : List (RiotPlatform × RiotRegion) :=
  [(.na1, .americas), (.br1, .americas), (.la1, .americas), (.la2, .americas),
   (.oc1, .sea), (.ph2, .sea), (.sg2, .sea), (.th2, .sea), (.tw2, .sea), (.vn2, .sea),
   (.jp1, .asia), (.kr, .asia),
   (.eun1, .europe), (.euw1, .europe), (.tr1, .europe), (.ru, .europe)]

/-- `RiotAPIValidationError` raised by the two conversion helpers. -/
inductive RoutingError where
  | unknownRegion (code : String) : RoutingError
  | unknownPlatform (code : String) : RoutingError
deriving DecidableEq, Repr

/-- `MatchClient._region_code_to_platform`: lower-case the code, then look it
up in `REGION_TO_PLATFORM`; raise for unknown codes. -/
def regionCodeToPlatform (region : String) : Except RoutingError RiotPlatform :=
  let regionLower := pyLower region
  match REGION_TO_PLATFORM.find? (fun kv => kv.1 == regionLower) with
  | some kv => Except.ok kv.2
  | none => Except.error (RoutingError.unknownRegion region)

/-- `MatchClient._platform_to_region` on an actual `RiotPlatform` member. -/
def platformToRegion (platform : RiotPlatform) : Except RoutingError RiotRegion :=
  match PLATFORM_TO_REGION.find? (fun kv => kv.1 == platform) with
  | some kv => Except.ok kv.2
  | none => Except.error (RoutingError.unknownPlatform platform.value)

/-- `MatchClient._platform_to_region` probed with a raw string: membership in
the dict keyed by the `str`-valued enum compares by string value. -/
def platformToRegionOfString (code : String) : Except RoutingError RiotRegion :=
  match PLATFORM_TO_REGION.find? (fun kv => kv.1.value == code) with
  | some kv => Except.ok kv.2
  | none => Except.error (RoutingError.unknownPlatform code)

/-- The two-step conversion used by `get_match_with_region` /
`get_match_ids_by_puuid_with_region`. -/
def toRegionOfCode (code : String) : Except RoutingError RiotRegion :=
  match regionCodeToPlatform code with
  | Except.ok p => platformToRegion p
  | Except.error e => Except.error e

/-! ## Rune data in match payloads
    (src/app/internal/riot_api/models.py lines 98-128) -/

structure PerkStyleSelection where
  perk : Int
  var1 : Int
  var2 : Int
  var3 : Int
deriving DecidableEq, Repr

structure PerkStyle where
  description : String
  selections : List PerkStyleSelection
  style : Int
deriving DecidableEq, Repr

structure PerkStats where
  defense : Int
  flex : Int
  offense : Int
deriving DecidableEq, Repr

structure Perks where
  statPerks : PerkStats
  styles : List PerkStyle
deriving DecidableEq, Repr

/-- `get_participant_runes` (controllers/summoners.py lines 147-151):
`list(filter(lambda x: x.description == style, perk_styles))[0]` —
`none` models the `IndexError` when no style block has the description. -/
def getParticipantRunes (style : String) (perkStyles : List PerkStyle) : Option PerkStyle :=
  (perkStyles.filter (fun x => x.description == style)).head?

/-- A `MatchParticipantRunes` row (internal/models.py lines 249-269; the
auto-generated primary key is never read and is omitted). -/
structure MatchParticipantRunesRow where
  participantId : Nat
  primaryStyle : Int
  primaryPerk0 : Int
  primaryPerk1 : Int
  primaryPerk2 : Int
  primaryPerk3 : Int
  secondaryStyle : Int
  secondaryPerk0 : Int
  secondaryPerk1 : Int
  statPerkDefense : Int
  statPerkFlex : Int
  statPerkOffense : Int
deriving DecidableEq, Repr

/-- The rune-insertion step of `update_matches` (controllers/summoners.py
lines 247-264): look up the `primaryStyle` and `subStyle` blocks by
description and index into their selection lists.  `none` models the
`IndexError` raised when a block is missing or a selection list is too
short; the participant row is already committed when that happens. -/
def buildRunesRow (participantId : Nat) (perks : Perks) : Option MatchParticipantRunesRow :=
  match getParticipantRunes "primaryStyle" perks.styles with
  | none => none
  | some primaryStyle =>
    match getParticipantRunes "subStyle" perks.styles with
    | none => none
    | some subStyle =>
      match primaryStyle.selections[0]?, primaryStyle.selections[1]?,
            primaryStyle.selections[2]?, primaryStyle.selections[3]?,
            subStyle.selections[0]?, subStyle.selections[1]? with
      | some p0, some p1, some p2, some p3, some s0, some s1 =>
        some { participantId := participantId,
               primaryStyle := primaryStyle.style,
               primaryPerk0 := p0.perk, primaryPerk1 := p1.perk,
               primaryPerk2 := p2.perk, primaryPerk3 := p3.perk,
               secondaryStyle := subStyle.style,
               secondaryPerk0 := s0.perk, secondaryPerk1 := s1.perk,
               statPerkDefense := perks.statPerks.defense,
               statPerkFlex := perks.statPerks.flex,
               statPerkOffense := perks.statPerks.offense }
      | _, _, _, _, _, _ => none

/-! ## `extract_runes_from_participant`
    (src/app/internal/match_utils.py lines 15-65)

The raw participant dict is embedded with every `.get`-accessed key as an
`Option` field; an absent `perks` dict is modelled as `none` (Python also
treats an empty dict as falsy). -/

structure RawSelection where
  perk : Option Int
deriving DecidableEq, Repr

structure RawStyle where
  description : Option String
  selections : Option (List RawSelection)
  style : Option Int
deriving DecidableEq, Repr

structure RawStatPerks where
  defense : Option Int
  flex : Option Int
  offense : Option Int
deriving DecidableEq, Repr

structure RawPerks where
  styles : Option (List RawStyle)
  statPerks : Option RawStatPerks
deriving DecidableEq, Repr

structure RawParticipant where
  perks : Option RawPerks
deriving DecidableEq, Repr

/-- The dict returned by `extract_runes_from_participant`. -/
structure RuneData where
  primaryStyle : Int
  primaryPerk0 : Int
  primaryPerk1 : Int
  primaryPerk2 : Int
  primaryPerk3 : Int
  secondaryStyle : Int
  secondaryPerk0 : Int
  secondaryPerk1 : Int
  statPerkDefense : Int
  statPerkFlex : Int
  statPerkOffense : Int
deriving DecidableEq, Repr

/-- `runeData rd`: a usable rune dict; `noRunes`: the function returns
`None`; `indexError`: the `IndexError` escaping from `selections[i]`. -/
inductive ExtractResult where
  | runeData (rd : RuneData) : ExtractResult
  | noRunes : ExtractResult
  | indexError : ExtractResult
deriving DecidableEq, Repr

def extractRunesFromParticipant (participantData : RawParticipant) : ExtractResult :=
  match participantData.perks with
  | none => ExtractResult.noRunes
  | some perks =>
    let styles := perks.styles.getD []
    let statPerks := perks.statPerks.getD { defense := none, flex := none, offense := none }
    if styles.length < 2 then ExtractResult.noRunes
    else
      match styles[0]?, styles[1]? with
      | some primaryStyle, some secondaryStyle =>
        let primarySelections := primaryStyle.selections.getD []
        let secondarySelections := secondaryStyle.selections.getD []
        match primarySelections[0]?, primarySelections[1]?,
              primarySelections[2]?, primarySelections[3]?,
              secondarySelections[0]?, secondarySelections[1]? with
        | some p0, some p1, some p2, some p3, some s0, some s1 =>
          let runeData : RuneData :=
            { primaryStyle := primaryStyle.style.getD 0,
              primaryPerk0 := p0.perk.getD 0, primaryPerk1 := p1.perk.getD 0,
              primaryPerk2 := p2.perk.getD 0, primaryPerk3 := p3.perk.getD 0,
              secondaryStyle := secondaryStyle.style.getD 0,
              secondaryPerk0 := s0.perk.getD 0, secondaryPerk1 := s1.perk.getD 0,
              statPerkDefense := statPerks.defense.getD 0,
              statPerkFlex := statPerks.flex.getD 0,
              statPerkOffense := statPerks.offense.getD 0 }
          if runeData.primaryStyle = runeData.secondaryStyle then ExtractResult.noRunes
          else ExtractResult.runeData runeData
        | _, _, _, _, _, _ => ExtractResult.indexError
      | _, _ => ExtractResult.noRunes

/-! ## League reconciliation — `update_leagues`
    (src/app/internal/controllers/summoners.py lines 113-144) -/

/-- A `SummonerLeagues` row (internal/models.py lines 85-100; ids omitted,
they are never read by `update_leagues`). -/
structure LeagueRec where
  leagueId : String
  queueType : String
  tier : String
  rank : String
  wins : Int
  losses : Int
  leaguePoints : Int
deriving DecidableEq, Repr

/-- A `LeagueEntry` fetched from the upstream API
(riot_api/models.py lines 67-82). -/
structure LeagueEntry where
  leagueId : String
  queueType : String
  tier : String
  rank : String
  leaguePoints : Int
  wins : Int
  losses : Int
  veteran : Bool
  inactive : Bool
  freshBlood : Bool
  hotStreak : Bool
deriving DecidableEq, Repr

/-- The `leagues_at_riot` list built at the top of `update_leagues`:
fresh `SummonerLeagues` objects copied field by field from the fetched
entries. -/
def leaguesAtRiot (leagues : List LeagueEntry) : List LeagueRec :=
  leagues.map (fun league =>
    { leagueId := league.leagueId,
      queueType := league.queueType,
      tier := league.tier,
      rank := league.rank,
      wins := league.wins,
      losses := league.losses,
      leaguePoints := league.leaguePoints })

/-- One persistence-session operation performed by `update_leagues`. -/
inductive SessionOp where
  | deleteRow (l : LeagueRec) : SessionOp
  | addRow (l : LeagueRec) : SessionOp
  | commitTx : SessionOp
deriving DecidableEq, Repr

/-- Observable result of `update_leagues`: the final value of
`summoner.leagues`, the session operations issued, and whether the loop
aborted with an `IndexError` from `summoner.leagues[index]`. -/
structure UpdateLeaguesResult where
  leagues : List LeagueRec
  ops : List SessionOp
  indexError : Bool
deriving DecidableEq, Repr

/-- The in-place overwrite of the `else` branch: wins/losses/points are
copied from the matching fetched entry, all other fields kept. -/
def overwriteFromFetched (league fetched : LeagueRec) : LeagueRec :=
  { league with wins := fetched.wins, losses := fetched.losses,
                leaguePoints := fetched.leaguePoints }

/-- The `for index, league in enumerate(summoner.leagues)` loop.
`rest` is the not-yet-visited suffix of the list object the iterator was
created on; `old` is the current contents of that same list object (its
entries are mutated in place by the `else` branch); `reassigned` records
whether `summoner.leagues = leagues_at_riot` has been executed, after which
`summoner.leagues[index]` indexes the fetched list instead.  An
out-of-range index aborts the call (`IndexError`), leaving the operations
issued so far in place. -/
def updateLeaguesLoop (fetched : List LeagueRec) :
    List LeagueRec → Nat → List LeagueRec → Bool → List SessionOp → UpdateLeaguesResult
  | [], _, old, reassigned, ops =>
    { leagues := if reassigned then fetched else old, ops := ops, indexError := false }
  | league :: rest, index, old, reassigned, ops =>
    match fetched.filter (fun riotLeague => riotLeague.leagueId == league.leagueId) with
    | [] =>
      let cur := if reassigned then fetched else old
      match cur[index]? with
      | some victim =>
        updateLeaguesLoop fetched rest (index + 1) old true (ops ++ [SessionOp.deleteRow victim])
      | none =>
        { leagues := if reassigned then fetched else old, ops := ops, indexError := true }
    | matched :: _ =>
      let updated := overwriteFromFetched league matched
      updateLeaguesLoop fetched rest (index + 1) (old.set index updated) reassigned
        (ops ++ [SessionOp.addRow updated, SessionOp.commitTx])

/-- `update_leagues`: `existing` is `summoner.leagues` at entry,
`fetched` the list of upstream entries. -/
def updateLeagues (existing : List LeagueRec) (fetched : List LeagueEntry) : UpdateLeaguesResult :=
  updateLeaguesLoop (leaguesAtRiot fetched) existing 0 existing false []

/-- The value an existing entry ends up with under the `else` branch: stats
overwritten from the first fetched entry sharing its league id, identity
fields untouched; unchanged when no fetched entry matches. -/
def reconciledEntry (fetched : List LeagueRec) (league : LeagueRec) : LeagueRec :=
  match fetched.filter (fun riotLeague => riotLeague.leagueId == league.leagueId) with
  | [] => league
  | matched :: _ => overwriteFromFetched league matched

/-! ## Match payloads
    (src/app/internal/riot_api/models.py lines 89-290; fields read by
    `update_matches` and the facade) -/

structure RMatchMetadata where
  dataVersion : String
  matchId : String
  participants : List String
deriving DecidableEq, Repr

structure RMatchObjective where
  first : Bool
  kills : Int
deriving DecidableEq, Repr

structure RMatchTeamObjectives where
  baron : RMatchObjective
  champion : RMatchObjective
  dragon : RMatchObjective
  horde : RMatchObjective
  inhibitor : RMatchObjective
  riftHerald : RMatchObjective
  tower : RMatchObjective
deriving DecidableEq, Repr

/-- `for name, objective in team.objectives` iterates the pydantic model's
fields in declaration order as (name, value) pairs. -/
def objectivePairs (o : RMatchTeamObjectives) : List (String × RMatchObjective) :=
  [("baron", o.baron), ("champion", o.champion), ("dragon", o.dragon),
   ("horde", o.horde), ("inhibitor", o.inhibitor),
   ("rift_herald", o.riftHerald), ("tower", o.tower)]

structure RMatchTeamBan where
  championId : Int
  pickTurn : Int
deriving DecidableEq, Repr

structure RMatchTeam where
  teamId : Int
  bans : List RMatchTeamBan
  objectives : RMatchTeamObjectives
  win : Bool
deriving DecidableEq, Repr

structure RMatchParticipant where
  puuid : String
  riotIdGameName : String
  riotIdTagline : String
  championId : Int
  championName : String
  teamId : Int
  lane : String
  kills : Int
  deaths : Int
  assists : Int
  doubleKills : Int
  tripleKills : Int
  quadraKills : Int
  pentaKills : Int
  largestMultiKill : Int
  damageDealtToChampions : Int
  damageTaken : Int
  totalMinionsKilled : Int
  neutralMinionsKilled : Int
  goldEarned : Int
  visionScore : Int
  wardsPlaced : Int
  wardsKilled : Int
  visionWardsBought : Int
  item0 : Int
  item1 : Int
  item2 : Int
  item3 : Int
  item4 : Int
  item5 : Int
  item6 : Int
  perks : Perks

structure RMatchInfo where
  gameCreation : Int
  gameDuration : Int
  gameEndTimestamp : Option Int
  gameMode : String
  gameType : String
  gameVersion : String
  mapId : Int
  queueId : Int
  platformId : String
  participants : List RMatchParticipant
  teams : List RMatchTeam

structure RiotMatch where
  metadata : RMatchMetadata
  info : RMatchInfo

/-! ## Database rows created by `update_matches`
    (src/app/internal/models.py) -/

structure MatchRow where
  id : Nat
  matchId : String
  platform : String
  queueId : Int
  gameMode : String
  gameType : String
  gameVersion : String
  mapId : Int
  gameStart : Int
  gameEnd : Option Int
  gameDuration : Int
deriving DecidableEq, Repr

structure MatchTeamBanRow where
  championId : Int
  pickTurn : Int
deriving DecidableEq, Repr

structure MatchTeamObjectiveRow where
  objective : String
  first : Bool
  kills : Int
deriving DecidableEq, Repr

/-- A `MatchTeam` row with its cascade-inserted bans and objectives. -/
structure MatchTeamRow where
  id : Nat
  matchId : Nat
  teamId : Int
  bans : List MatchTeamBanRow
  objectives : List MatchTeamObjectiveRow
  win : Bool
deriving DecidableEq, Repr

structure MatchParticipantRow where
  id : Nat
  matchId : Nat
  teamId : Option Nat
  summonerPuuid : String
  championId : Int
  championName : String
  lane : String
  kills : Int
  deaths : Int
  assists : Int
  doubleKills : Int
  tripleKills : Int
  quadraKills : Int
  pentaKills : Int
  largestMultiKill : Int
  damageDealtToChampions : Int
  damageTaken : Int
  totalMinionsKilled : Int
  neutralMinionsKilled : Int
  goldEarned : Int
  visionScore : Int
  wardsPlaced : Int
  wardsKilled : Int
  visionWardsBought : Int
  item0 : Int
  item1 : Int
  item2 : Int
  item3 : Int
  item4 : Int
  item5 : Int
  item6 : Int

/-- A `Summoner` row with its cascade-inserted `SummonerLeagues` rows. -/
structure SummonerRow where
  id : Nat
  puuid : String
  region : String
  summonerName : String
  tagLine : String
  summonerLevel : Int
  profileIcon : Int
  revisionDate : Int
  leagues : List LeagueRec
deriving DecidableEq, Repr

/-- The tables touched by match ingestion, with one id allocator per table
(auto-increment primary keys obtained via `session.refresh`). -/
structure IngestDB where
  matchRows : List MatchRow
  teams : List MatchTeamRow
  participants : List MatchParticipantRow
  runes : List MatchParticipantRunesRow
  summoners : List SummonerRow
  nextMatchId : Nat
  nextTeamId : Nat
  nextParticipantId : Nat
  nextSummonerId : Nat

/-- `get_match_by_match_id` (controllers/summoners.py lines 31-39). -/
def getMatchByMatchId (db : IngestDB) (matchId : String) : Option MatchRow :=
  db.matchRows.find? (fun m => m.matchId == matchId)

/-- `get_summoner_by_name` (lines 18-28): both inputs are stripped. -/
def getSummonerByName (db : IngestDB) (gameName tagLine : String) : Option SummonerRow :=
  db.summoners.find? (fun s =>
    s.summonerName == pyStripStr gameName && s.tagLine == pyStripStr tagLine)

/-- `get_summoner_by_puuid` (lines 42-45). -/
def getSummonerByPuuid (db : IngestDB) (puuid : String) : Option SummonerRow :=
  db.summoners.find? (fun s => s.puuid == puuid)

/-- The aggregated profile returned by `riot_api.get_summoner`
(riot_api/models.py lines 296-309). -/
structure RiotSummonerProfile where
  puuid : String
  region : String
  summonerName : String
  tagLine : String
  summonerLevel : Int
  profileIcon : Int
  revisionDate : Int
  leagues : List LeagueEntry
deriving DecidableEq, Repr

/-- Upstream behaviour of `riot_api.get_summoner(game_name, tag_line)`:
a profile, a `RiotAPINotFoundError` (caught by `create`), or any other
`RiotAPIError` (uncaught, aborts ingestion). -/
inductive RiotLookup where
  | found (profile : RiotSummonerProfile) : RiotLookup
  | notFound : RiotLookup
  | apiError : RiotLookup
deriving DecidableEq, Repr

/-- Exceptions that can escape an ingestion step. -/
inductive IngestStepError where
  | apiError : IngestStepError
  | teamKeyError : IngestStepError
  | runeIndexError : IngestStepError
deriving DecidableEq, Repr

/-- `create` (controllers/summoners.py lines 56-97): fetch the profile,
swallow not-found, insert a new summoner (with its league rows) unless one
with the same puuid exists.  Returns the database, the number of
`session.add` calls, and the escaping exception if any. -/
def createSummoner (api : String → String → RiotLookup) (db : IngestDB)
    (gameName tagLine : String) : IngestDB × Nat × Option IngestStepError :=
  match api gameName tagLine with
  | RiotLookup.notFound => (db, 0, none)
  | RiotLookup.apiError => (db, 0, some IngestStepError.apiError)
  | RiotLookup.found profile =>
    match getSummonerByPuuid db profile.puuid with
    | some _ => (db, 0, none)
    | none =>
      let newSummoner : SummonerRow :=
        { id := db.nextSummonerId,
          puuid := profile.puuid,
          region := profile.region,
          summonerName := profile.summonerName,
          tagLine := profile.tagLine,
          summonerLevel := profile.summonerLevel,
          profileIcon := profile.profileIcon,
          revisionDate := profile.revisionDate,
          leagues := leaguesAtRiot profile.leagues }
      ({ db with summoners := db.summoners ++ [newSummoner],
                 nextSummonerId := db.nextSummonerId + 1 },
       1, none)

/-- `find_or_create` (lines 100-111). -/
def findOrCreate (api : String → String → RiotLookup) (db : IngestDB)
    (gameName tagLine : String) : IngestDB × Nat × Option IngestStepError :=
  match getSummonerByName db gameName tagLine with
  | some _ => (db, 0, none)
  | none => createSummoner api db gameName tagLine

/-- The `team_ids` dict, initialised to `{100: None, 200: None}` and written
with `team_ids[team.team_id] = new_team.id`. -/
def teamIdsInit : List (Int × Option Nat) := [(100, none), (200, none)]

def dictSet (d : List (Int × Option Nat)) (k : Int) (v : Option Nat) :
    List (Int × Option Nat) :=
  if d.any (fun kv => kv.1 == k) then
    d.map (fun kv => if kv.1 == k then (k, v) else kv)
  else d ++ [(k, v)]

/-- `team_ids[participant.team_id]`: `none` models the `KeyError`. -/
def dictGet (d : List (Int × Option Nat)) (k : Int) : Option (Option Nat) :=
  (d.find? (fun kv => kv.1 == k)).map (fun kv => kv.2)

/-- The team-creation loop of `update_matches` (lines 180-204): one
cascading `session.add` per team, recording the generated id in `team_ids`. -/
def ingestTeams (matchRowId : Nat) :
    IngestDB → List (Int × Option Nat) → List RMatchTeam →
    IngestDB × List (Int × Option Nat) × Nat
  | db, teamIds, [] => (db, teamIds, 0)
  | db, teamIds, team :: rest =>
    let newTeam : MatchTeamRow :=
      { id := db.nextTeamId,
        matchId := matchRowId,
        teamId := team.teamId,
        bans := team.bans.map (fun b => { championId := b.championId, pickTurn := b.pickTurn }),
        objectives := (objectivePairs team.objectives).map (fun p =>
          { objective := p.1, first := p.2.first, kills := p.2.kills }),
        win := team.win }
    let db1 : IngestDB :=
      { db with teams := db.teams ++ [newTeam], nextTeamId := db.nextTeamId + 1 }
    let res := ingestTeams matchRowId db1 (dictSet teamIds team.teamId (some newTeam.id)) rest
    (res.1, res.2.1, res.2.2 + 1)

/-- One iteration of the participant loop (lines 209-265): ensure a profile
exists, insert the participant row, then insert its rune page (which can
raise after the participant row is already committed). -/
def ingestParticipant (api : String → String → RiotLookup) (db : IngestDB)
    (matchRowId : Nat) (teamIds : List (Int × Option Nat)) (p : RMatchParticipant) :
    IngestDB × Nat × Option IngestStepError :=
  match findOrCreate api db p.riotIdGameName p.riotIdTagline with
  | (db1, w1, some e) => (db1, w1, some e)
  | (db1, w1, none) =>
    match dictGet teamIds p.teamId with
    | none => (db1, w1, some IngestStepError.teamKeyError)
    | some teamRowId =>
      let newParticipant : MatchParticipantRow :=
        { id := db1.nextParticipantId,
          matchId := matchRowId,
          teamId := teamRowId,
          summonerPuuid := p.puuid,
          championId := p.championId,
          championName := p.championName,
          lane := p.lane,
          kills := p.kills, deaths := p.deaths, assists := p.assists,
          doubleKills := p.doubleKills, tripleKills := p.tripleKills,
          quadraKills := p.quadraKills, pentaKills := p.pentaKills,
          largestMultiKill := p.largestMultiKill,
          damageDealtToChampions := p.damageDealtToChampions,
          damageTaken := p.damageTaken,
          totalMinionsKilled := p.totalMinionsKilled,
          neutralMinionsKilled := p.neutralMinionsKilled,
          goldEarned := p.goldEarned,
          visionScore := p.visionScore,
          wardsPlaced := p.wardsPlaced, wardsKilled := p.wardsKilled,
          visionWardsBought := p.visionWardsBought,
          item0 := p.item0, item1 := p.item1, item2 := p.item2, item3 := p.item3,
          item4 := p.item4, item5 := p.item5, item6 := p.item6 }
      let db2 : IngestDB :=
        { db1 with participants := db1.participants ++ [newParticipant],
                   nextParticipantId := db1.nextParticipantId + 1 }
      match buildRunesRow newParticipant.id p.perks with
      | none => (db2, w1 + 1, some IngestStepError.runeIndexError)
      | some runesRow =>
        ({ db2 with runes := db2.runes ++ [runesRow] }, w1 + 2, none)

/-- The participant loop; an exception aborts the remaining iterations. -/
def ingestParticipants (api : String → String → RiotLookup)
    (matchRowId : Nat) (teamIds : List (Int × Option Nat)) :
    IngestDB → List RMatchParticipant → IngestDB × Nat × Option IngestStepError
  | db, [] => (db, 0, none)
  | db, p :: rest =>
    match ingestParticipant api db matchRowId teamIds p with
    | (db1, w1, some e) => (db1, w1, some e)
    | (db1, w1, none) =>
      let res := ingestParticipants api matchRowId teamIds db1 rest
      (res.1, w1 + res.2.1, res.2.2)

/-- Terminal states of the ingestion pipeline for one match payload
(spec section 4.7); `writes` counts `session.add` calls. -/
inductive IngestOutcome where
  | skipped : IngestOutcome
  | ingested (writes : Nat) : IngestOutcome
  | failed (err : IngestStepError) (writes : Nat) : IngestOutcome
deriving DecidableEq, Repr

/-- One iteration of the `for match in recent_matches` loop of
`update_matches` (controllers/summoners.py lines 162-267): skip when a
`Match` row with the payload's match id exists, otherwise insert the match
row, its teams and its participants. -/
def ingestMatch (api : String → String → RiotLookup) (db : IngestDB)
    (m : RiotMatch) : IngestDB × IngestOutcome :=
  match getMatchByMatchId db m.metadata.matchId with
  | some _ => (db, IngestOutcome.skipped)
  | none =>
    let newMatch : MatchRow :=
      { id := db.nextMatchId,
        matchId := m.metadata.matchId,
        platform := m.info.platformId,
        queueId := m.info.queueId,
        gameMode := m.info.gameMode,
        gameType := m.info.gameType,
        gameVersion := m.info.gameVersion,
        mapId := m.info.mapId,
        gameStart := m.info.gameCreation,
        gameEnd := m.info.gameEndTimestamp,
        gameDuration := m.info.gameDuration }
    let db1 : IngestDB :=
      { db with matchRows := db.matchRows ++ [newMatch], nextMatchId := db.nextMatchId + 1 }
    match ingestTeams newMatch.id db1 teamIdsInit m.info.teams with
    | (db2, teamIds, teamWrites) =>
      match ingestParticipants api newMatch.id teamIds db2 m.info.participants with
      | (db3, partWrites, none) =>
        (db3, IngestOutcome.ingested (1 + teamWrites + partWrites))
      | (db3, partWrites, some e) =>
        (db3, IngestOutcome.failed e (1 + teamWrites + partWrites))

/-- Number of `Match` rows carrying a given match id. -/
def countMatchRows (db : IngestDB) (matchId : String) : Nat :=
  (db.matchRows.filter (fun m => m.matchId == matchId)).length

/-! ## Facade — `get_recent_matches`
    (src/app/internal/riot_api/facade.py lines 196-229) -/

/-- The `for match_id in match_ids` loop: `fetch` is
`match_client.get_match_with_region`, returning `none` when that call
raises (the id is logged and skipped). -/
def getRecentMatchesLoop (fetch : String → Option RiotMatch) :
    List String → List RiotMatch → List RiotMatch
  | [], collected => collected
  | matchId :: rest, collected =>
    match fetch matchId with
    | some m => getRecentMatchesLoop fetch rest (collected ++ [m])
    | none => getRecentMatchesLoop fetch rest collected

/-- `RiotAPIFacade.get_recent_matches`, given the fetched id list. -/
def getRecentMatches (fetch : String → Option RiotMatch) (matchIds : List String) :
    List RiotMatch :=
  getRecentMatchesLoop fetch matchIds []

/-! ## Concrete example values used by the counterexample theorems -/

/-- Existing SOLO entry with 10 wins (spec section 8 reconciliation example). -/
def exSolo : LeagueRec :=
  { leagueId := "LS", queueType := "RANKED_SOLO_5x5", tier := "GOLD", rank := "I",
    wins := 10, losses := 4, leaguePoints := 50 }

/-- Existing FLEX entry with 5 wins (spec section 8 reconciliation example). -/
def exFlex : LeagueRec :=
  { leagueId := "LF", queueType := "RANKED_FLEX_SR", tier := "SILVER", rank := "II",
    wins := 5, losses := 5, leaguePoints := 20 }

/-- A second stale existing entry, absent from the fetched set. -/
def exStaleA : LeagueRec :=
  { leagueId := "LA", queueType := "QA", tier := "T", rank := "R",
    wins := 1, losses := 1, leaguePoints := 1 }

/-- A third stale existing entry, absent from the fetched set. -/
def exStaleB : LeagueRec :=
  { leagueId := "LB", queueType := "QB", tier := "T", rank := "R",
    wins := 2, losses := 2, leaguePoints := 2 }

/-- Fetched SOLO entry with 12 wins, same league id as `exSolo`. -/
def exSoloFetched : LeagueEntry :=
  { leagueId := "LS", queueType := "RANKED_SOLO_5x5", tier := "GOLD", rank := "I",
    leaguePoints := 61, wins := 12, losses := 4,
    veteran := false, inactive := false, freshBlood := false, hotStreak := false }

/-- A fetched entry for a queue the player has just ranked into: its league
id matches no existing entry. -/
def exNewFetched : LeagueEntry :=
  { leagueId := "LN", queueType := "RANKED_FLEX_SR", tier := "BRONZE", rank := "IV",
    leaguePoints := 10, wins := 3, losses := 7,
    veteran := false, inactive := false, freshBlood := true, hotStreak := false }

/-- Rune payload whose two style blocks carry the same style id 8100:
`extract_runes_from_participant` treats it as having no usable rune data. -/
def samePrimarySubStylePerks : Perks :=
  { statPerks := { defense := 5001, flex := 5008, offense := 5005 },
    styles :=
      [{ description := "primaryStyle", style := 8100,
         selections := [{ perk := 8112, var1 := 0, var2 := 0, var3 := 0 },
                        { perk := 8126, var1 := 0, var2 := 0, var3 := 0 },
                        { perk := 8138, var1 := 0, var2 := 0, var3 := 0 },
                        { perk := 8135, var1 := 0, var2 := 0, var3 := 0 }] },
       { description := "subStyle", style := 8100,
         selections := [{ perk := 8275, var1 := 0, var2 := 0, var3 := 0 },
                        { perk := 8234, var1 := 0, var2 := 0, var3 := 0 }] }] }

/-- The same payload as a raw participant dict, as read by
`extract_runes_from_participant`. -/
def samePrimarySubStyleRaw : RawParticipant :=
  { perks := some
      { styles := some
          [{ description := some "primaryStyle", style := some 8100,
             selections := some [{ perk := some 8112 }, { perk := some 8126 },
                                 { perk := some 8138 }, { perk := some 8135 }] },
           { description := some "subStyle", style := some 8100,
             selections := some [{ perk := some 8275 }, { perk := some 8234 }] }],
        statPerks := some { defense := some 5001, flex := some 5008, offense := some 5005 } } }

/-- Rune payload with a single style block (no `subStyle` entry). -/
def missingSubStylePerks : Perks :=
  { statPerks := { defense := 5001, flex := 5008, offense := 5005 },
    styles :=
      [{ description := "primaryStyle", style := 8100,
         selections := [{ perk := 8112, var1 := 0, var2 := 0, var3 := 0 },
                        { perk := 8126, var1 := 0, var2 := 0, var3 := 0 },
                        { perk := 8138, var1 := 0, var2 := 0, var3 := 0 },
                        { perk := 8135, var1 := 0, var2 := 0, var3 := 0 }] }] }

/-- An upstream oracle under which every profile lookup misses (the
`RiotAPINotFoundError` branch of `create`). -/
def exApi : String → String → RiotLookup := fun _ _ => RiotLookup.notFound

/-- An ingestion database with every table empty. -/
def exEmptyDB : IngestDB :=
  { matchRows := [], teams := [], participants := [], runes := [], summoners := [],
    nextMatchId := 1, nextTeamId := 1, nextParticipantId := 1, nextSummonerId := 1 }

/-- A minimal match payload (no teams, no participants). -/
def exMatch : RiotMatch :=
  { metadata := { dataVersion := "2", matchId := "EUW1_7000000001", participants := [] },
    info := { gameCreation := 1700000000000, gameDuration := 1800,
              gameEndTimestamp := some 1700000002000,
              gameMode := "CLASSIC", gameType := "MATCHED_GAME", gameVersion := "14.1.1",
              mapId := 11, queueId := 420, platformId := "EUW1",
              participants := [], teams := [] } }

/-! # Theorems -/

/-- C9: the freshness predicate is pure and equals
`(now - lastSyncedAt) >= ttl` for every triple of inputs; at the boundary
(ttl = 30 s), a record synced 29 s ago is fresh and one synced 31 s ago is
stale.  Times in microseconds. -/
theorem freshness_pure_and_boundary :
    (∀ ttl now lastSyncedAt : Int,
        isSummonerTtlExpiredWith ttl now lastSyncedAt = isStale now lastSyncedAt ttl) ∧
    (∀ T : Int, isSummonerTtlExpired T (T - 29 * 1000000) = false) ∧
    (∀ T : Int, isSummonerTtlExpired T (T - 31 * 1000000) = true) := by
  refine ⟨fun ttl now lastSyncedAt => rfl, fun T => ?_, fun T => ?_⟩
  · simp only [isSummonerTtlExpired, isSummonerTtlExpiredWith, SUMMONER_TTL_TIMEDELTA_US,
      decide_eq_false_iff_not]
    omega
  · simp only [isSummonerTtlExpired, isSummonerTtlExpiredWith, SUMMONER_TTL_TIMEDELTA_US,
      decide_eq_true_eq]
    omega

/-- C4 counterexample: a 302 response is non-2xx, yet `_check_response_status`
raises nothing at all (aiohttp's `response.ok` is `status < 400`), instead of
the `UnexpectedStatusError` the claim requires for "any other non-2xx". -/
theorem statusMapping_counterexample :
    checkResponseStatus 302 none = CheckOutcome.ok ∧
    checkResponseStatus 302 none ≠ CheckOutcome.unexpectedStatusError 302 := by
  exact ⟨rfl, by decide⟩

/-- C4 amended: for every response with status >= 400 the fixed mapping
holds — 401/403 raise `AuthenticationError`, 404 `NotFoundError`, 429
`RateLimitError` carrying the parsed `Retry-After` header when present
(and `None` otherwise), 5xx `ServerError` with the status, and any other
status >= 400 `UnexpectedStatusError` with the status; statuses below 400
(including non-2xx 1xx/3xx) pass the check as success.  In particular a 429
with header `Retry-After: 30` carries retry-after 30. -/
theorem statusMapping_amended (status : Nat) (header : Option String) (hge : 400 ≤ status) :
    checkResponseStatus 429 (some "30") = CheckOutcome.rateLimitError (some 30) ∧
    ((status = 401 ∨ status = 403) →
        checkResponseStatus status header = CheckOutcome.authenticationError) ∧
    (status = 404 → checkResponseStatus status header = CheckOutcome.notFoundError) ∧
    (status = 429 → header = none →
        checkResponseStatus status header = CheckOutcome.rateLimitError none) ∧
    (∀ s n, status = 429 → header = some s → s ≠ "" → pyInt s = some n →
        checkResponseStatus status header = CheckOutcome.rateLimitError (some n)) ∧
    (500 ≤ status → status < 600 →
        checkResponseStatus status header = CheckOutcome.serverError status) ∧
    (status ≠ 401 → status ≠ 403 → status ≠ 404 → status ≠ 429 →
        ¬(500 ≤ status ∧ status < 600) →
        checkResponseStatus status header = CheckOutcome.unexpectedStatusError status) := by
  refine ⟨by decide, ?_, ?_, ?_, ?_, ?_, ?_⟩
  · rintro (rfl | rfl) <;> simp [checkResponseStatus]
  · rintro rfl; simp [checkResponseStatus]
  · rintro rfl rfl; simp [checkResponseStatus]
  · rintro s n rfl rfl hne hp
    simp [checkResponseStatus, hne, hp]
  · intro h5 h6
    have hlt : ¬(status < 400) := by omega
    have h401 : status ≠ 401 := by omega
    have h403 : status ≠ 403 := by omega
    have h404 : status ≠ 404 := by omega
    have h429 : status ≠ 429 := by omega
    have hb : (500 ≤ status && status < 600) = true := by
      simp only [Bool.and_eq_true, decide_eq_true_eq]
      exact ⟨h5, h6⟩
    simp only [checkResponseStatus]
    rw [if_neg hlt, if_neg h401, if_neg h403, if_neg h404, if_neg h429, if_pos hb]
  · intro h1 h2 h3 h4 h5
    have hlt : ¬(status < 400) := by omega
    have hb : ¬((500 ≤ status && status < 600) = true) := by
      simp only [Bool.and_eq_true, decide_eq_true_eq]
      intro hc
      exact h5 hc
    simp only [checkResponseStatus]
    rw [if_neg hlt, if_neg h1, if_neg h2, if_neg h3, if_neg h4, if_neg hb]

/-- Witness for the C4 amended theorem at status 503 with no header. -/
theorem statusMapping_amended_witness :
    checkResponseStatus 429 (some "30") = CheckOutcome.rateLimitError (some 30) ∧
    checkResponseStatus 503 none = CheckOutcome.serverError 503 := by
  refine ⟨(statusMapping_amended 503 none (by decide)).1, ?_⟩
  exact (statusMapping_amended 503 none (by decide)).2.2.2.2.2.1 (by decide) (by decide)

/-- C5 counterexample: an explicit 429 rate-limit response is retried by
`retry_middleware` just like any other non-ok response — with an upstream
that always answers 429, three attempts are made, not one. -/
theorem retry_counterexample :
    (retryMiddleware (fun _ => { status := 429, retryAfterHeader := some "30" })).2 = 3 ∧
    (retryMiddleware (fun _ => { status := 429, retryAfterHeader := some "30" })).2 ≠ 1 := by
  exact ⟨rfl, by decide⟩

/-- C5 amended: `retry_middleware` makes at most 3 attempts per request and
retries every response that is not ok (`status >= 400`), 429 included: a
first ok response is returned immediately after one attempt, and after two
non-ok responses the third response is returned after exactly 3 attempts —
so a 429 is surfaced only after the attempt bound is exhausted, not after
the first attempt. -/
theorem retry_amended (handler : Nat → HttpResponse) :
    (retryMiddleware handler).2 ≤ 3 ∧
    (responseOk (handler 0) = true → retryMiddleware handler = (handler 0, 1)) ∧
    (responseOk (handler 0) = false → responseOk (handler 1) = false →
        retryMiddleware handler = (handler 2, 3)) := by
  refine ⟨?_, ?_, ?_⟩
  · cases h0 : responseOk (handler 0) <;> cases h1 : responseOk (handler 1) <;>
      simp [retryMiddleware, RETRY_ATTEMPTS, retryLoop, h0, h1]
  · intro h0; simp [retryMiddleware, RETRY_ATTEMPTS, retryLoop, h0]
  · intro h0 h1; simp [retryMiddleware, RETRY_ATTEMPTS, retryLoop, h0, h1]

/-- Witness for the C5 amended theorem: an always-429 upstream gets all
three attempts and the third response back. -/
theorem retry_amended_witness :
    retryMiddleware (fun _ => { status := 429, retryAfterHeader := none }) =
      ({ status := 429, retryAfterHeader := none }, 3) := by
  exact (retry_amended (fun _ => { status := 429, retryAfterHeader := none })).2.2 rfl rfl

/-- Helper: every platform's string value appears as a key of
`REGION_TO_PLATFORM` (mapping to that platform) and is already
lower-case. -/
theorem platform_value_mem_region_keys :
    ∀ pv ∈ PLATFORM_TO_REGION,
      (pv.1.value, pv.1) ∈ REGION_TO_PLATFORM ∧ pyLower pv.1.value = pv.1.value := by
  decide

/-- C7: for every routing code in the closed set (the keys of
`REGION_TO_PLATFORM`), the composite `toRegion(toPlatform(code))` is
defined (and deterministic, being a function); for every code whose
lower-cased form is outside the closed set, both lookups fail with the
unknown-routing-code validation error and never default. -/
theorem routing_closed_set :
    (∀ kv ∈ REGION_TO_PLATFORM, (toRegionOfCode kv.1).isOk = true) ∧
    (∀ code : String,
      REGION_TO_PLATFORM.find? (fun kv => kv.1 == pyLower code) = none →
      regionCodeToPlatform code = Except.error (RoutingError.unknownRegion code) ∧
      platformToRegionOfString code = Except.error (RoutingError.unknownPlatform code)) := by
  constructor
  · decide
  · intro code h
    have hall := List.find?_eq_none.mp h
    constructor
    · simp only [regionCodeToPlatform]
      rw [h]
    · simp only [platformToRegionOfString]
      have hnone : PLATFORM_TO_REGION.find? (fun kv => kv.1.value == code) = none := by
        rw [List.find?_eq_none]
        intro pv hpv hc
        have hcode : pv.1.value = code := eq_of_beq hc
        apply hall (pv.1.value, pv.1) (platform_value_mem_region_keys pv hpv).1
        have h2 : pyLower code = pv.1.value := by
          rw [← hcode]
          exact (platform_value_mem_region_keys pv hpv).2
        rw [h2]
        exact beq_self_eq_true pv.1.value
      rw [hnone]

/-- Witness for C7: the code "na" round-trips to a region, and the code
"xx" fails both lookups. -/
theorem routing_closed_set_witness :
    (toRegionOfCode "na").isOk = true ∧
    regionCodeToPlatform "xx" = Except.error (RoutingError.unknownRegion "xx") ∧
    platformToRegionOfString "xx" = Except.error (RoutingError.unknownPlatform "xx") := by
  refine ⟨routing_closed_set.1 ("na", RiotPlatform.na1) (by decide), ?_⟩
  exact routing_closed_set.2 "xx" (by decide)

/-- Helper: running the `get_recent_matches` loop with a non-empty
accumulator prepends the accumulator to the loop's result. -/
theorem getRecentMatchesLoop_acc (fetch : String → Option RiotMatch) :
    ∀ (matchIds : List String) (acc : List RiotMatch),
      getRecentMatchesLoop fetch matchIds acc = acc ++ getRecentMatchesLoop fetch matchIds [] := by
  intro matchIds
  induction matchIds with
  | nil => intro acc; simp only [getRecentMatchesLoop, List.append_nil]
  | cons matchId rest ih =>
    intro acc
    cases hf : fetch matchId with
    | none =>
      simp only [getRecentMatchesLoop, hf]
      exact ih acc
    | some m =>
      simp only [getRecentMatchesLoop, hf, List.nil_append]
      rw [ih (acc ++ [m]), ih [m], List.append_assoc]

/-- Helper: the `get_recent_matches` loop is `List.filterMap` of the fetch
function over the id list. -/
theorem getRecentMatches_eq_filterMap (fetch : String → Option RiotMatch) :
    ∀ matchIds : List String,
      getRecentMatches fetch matchIds = matchIds.filterMap fetch := by
  intro matchIds
  induction matchIds with
  | nil => rfl
  | cons matchId rest ih =>
    cases hf : fetch matchId with
    | none =>
      simp only [getRecentMatches, getRecentMatchesLoop, hf, List.filterMap_cons]
      exact ih
    | some m =>
      simp only [getRecentMatches, getRecentMatchesLoop, hf, List.filterMap_cons,
        List.nil_append]
      rw [getRecentMatchesLoop_acc fetch rest [m]]
      exact congrArg (List.cons m) ih

/-- C10: `get_recent_matches` returns at most one match per fetched id (its
length never exceeds the id count), concatenating id lists concatenates the
results (so the matches keep the ids' relative order), and a single id
yields exactly the successfully fetched match and nothing when the fetch
fails. -/
theorem recentMatches_order_and_bound (fetch : String → Option RiotMatch) :
    (∀ matchIds : List String,
        (getRecentMatches fetch matchIds).length ≤ matchIds.length) ∧
    (∀ ids1 ids2 : List String,
        getRecentMatches fetch (ids1 ++ ids2) =
          getRecentMatches fetch ids1 ++ getRecentMatches fetch ids2) ∧
    (∀ matchId : String, getRecentMatches fetch [matchId] = (fetch matchId).toList) := by
  refine ⟨?_, ?_, ?_⟩
  · intro matchIds
    rw [getRecentMatches_eq_filterMap]
    exact List.length_filterMap_le fetch matchIds
  · intro ids1 ids2
    rw [getRecentMatches_eq_filterMap, getRecentMatches_eq_filterMap,
      getRecentMatches_eq_filterMap, List.filterMap_append]
  · intro matchId
    rw [getRecentMatches_eq_filterMap]
    cases hf : fetch matchId <;> simp [hf]

/-- C8: the claim describes the rune-skip semantics of
`extract_runes_from_participant` (two identical style ids, or fewer than two
style blocks, mean no usable rune data: skip, do not fail) — but the
ingestion path in `update_matches` does not implement it: on a payload whose
`primaryStyle` and `subStyle` blocks share style id 8100 it still inserts a
`MatchParticipantRunes` row (with identical primary and secondary styles),
where the claim requires no insertion; and on a payload with a single style
block it raises `IndexError` instead of skipping, failing the ingestion
after the participant row was committed. -/
theorem rune_ingestion_divergence :
    buildRunesRow 1 samePrimarySubStylePerks =
      some { participantId := 1,
             primaryStyle := 8100,
             primaryPerk0 := 8112, primaryPerk1 := 8126,
             primaryPerk2 := 8138, primaryPerk3 := 8135,
             secondaryStyle := 8100,
             secondaryPerk0 := 8275, secondaryPerk1 := 8234,
             statPerkDefense := 5001, statPerkFlex := 5008,
             statPerkOffense := 5005 } ∧
    extractRunesFromParticipant samePrimarySubStyleRaw = ExtractResult.noRunes ∧
    buildRunesRow 1 missingSubStylePerks = none := by
  exact ⟨by decide, by decide, by decide⟩

/-- Helper: `reconciledEntry` changes only wins/losses/points; the identity
fields of the entry are untouched. -/
theorem reconciledEntry_identity (fetched : List LeagueRec) (l : LeagueRec) :
    (reconciledEntry fetched l).leagueId = l.leagueId ∧
    (reconciledEntry fetched l).queueType = l.queueType ∧
    (reconciledEntry fetched l).tier = l.tier ∧
    (reconciledEntry fetched l).rank = l.rank := by
  cases hf : fetched.filter (fun r => r.leagueId == l.leagueId) with
  | nil => simp [reconciledEntry, hf]
  | cons m t => simp [reconciledEntry, hf, overwriteFromFetched]

/-- Helper: setting an index strictly below `n` commutes away under
`List.drop n`. -/
theorem drop_succ_set (old : List LeagueRec) (index : Nat) (u : LeagueRec)
    (h : index < old.length) :
    (old.set index u).drop (index + 1) = old.drop (index + 1) := by
  rw [List.set_eq_take_cons_drop u h]
  have hA : (old.take index).length = index := by
    rw [List.length_take]
    exact Nat.min_eq_left (Nat.le_of_lt h)
  calc ((old.take index) ++ u :: old.drop (index + 1)).drop (index + 1)
      = ((old.take index) ++ u :: old.drop (index + 1)).drop ((old.take index).length + 1) := by
        rw [hA]
    _ = (u :: old.drop (index + 1)).drop 1 := List.drop_append 1
    _ = old.drop (index + 1) := rfl

/-- Helper: taking one element past a freshly set index splits off the set
value. -/
theorem take_succ_set (old : List LeagueRec) (index : Nat) (u : LeagueRec)
    (h : index < old.length) :
    (old.set index u).take (index + 1) = old.take index ++ [u] := by
  rw [List.set_eq_take_cons_drop u h]
  have hA : (old.take index).length = index := by
    rw [List.length_take]
    exact Nat.min_eq_left (Nat.le_of_lt h)
  calc ((old.take index) ++ u :: old.drop (index + 1)).take (index + 1)
      = ((old.take index) ++ u :: old.drop (index + 1)).take ((old.take index).length + 1) := by
        rw [hA]
    _ = old.take index ++ (u :: old.drop (index + 1)).take 1 := List.take_append 1
    _ = old.take index ++ [u] := rfl

/-- Helper: when every remaining entry has a fetched entry with its league
id, the `update_leagues` loop never deletes, never reassigns, never fails,
and overwrites each remaining entry in place. -/
theorem updateLeaguesLoop_all_matched (fetched : List LeagueRec) :
    ∀ (rest : List LeagueRec) (index : Nat) (old : List LeagueRec) (reassigned : Bool)
      (ops : List SessionOp),
      old.drop index = rest →
      (∀ l ∈ rest, fetched.filter (fun r => r.leagueId == l.leagueId) ≠ []) →
      updateLeaguesLoop fetched rest index old reassigned ops =
        { leagues := if reassigned then fetched else
            old.take index ++ rest.map (reconciledEntry fetched),
          ops := ops ++ rest.flatMap (fun l =>
            [SessionOp.addRow (reconciledEntry fetched l), SessionOp.commitTx]),
          indexError := false } := by
  intro rest
  induction rest with
  | nil =>
    intro index old reassigned ops hdrop _
    have htake : old.take index = old :=
      List.take_of_length_le (List.drop_eq_nil_iff.mp hdrop)
    simp [updateLeaguesLoop, htake]
  | cons l rest' ih =>
    intro index old reassigned ops hdrop hall
    have hlen : index < old.length := by
      by_contra hc
      rw [List.drop_eq_nil_iff.mpr (Nat.le_of_not_lt hc)] at hdrop
      exact List.noConfusion hdrop
    cases hf : fetched.filter (fun r => r.leagueId == l.leagueId) with
    | nil => exact absurd hf (hall l (List.mem_cons_self l rest'))
    | cons m t =>
      have hrec : reconciledEntry fetched l = overwriteFromFetched l m := by
        simp [reconciledEntry, hf]
      have hdrop' : old.drop (index + 1) = rest' := by
        have : (old.drop index).drop 1 = (l :: rest').drop 1 := by rw [hdrop]
        rw [List.drop_drop] at this
        exact this
      have hdropSet : (old.set index (overwriteFromFetched l m)).drop (index + 1) = rest' := by
        rw [drop_succ_set old index _ hlen]
        exact hdrop'
      simp only [updateLeaguesLoop, hf]
      rw [ih (index + 1) (old.set index (overwriteFromFetched l m)) reassigned
        (ops ++ [SessionOp.addRow (overwriteFromFetched l m), SessionOp.commitTx]) hdropSet
        (fun x hx => hall x (List.mem_cons_of_mem l hx))]
      have hleagues :
          (if reassigned then fetched else
            (old.set index (overwriteFromFetched l m)).take (index + 1) ++
              rest'.map (reconciledEntry fetched)) =
          (if reassigned then fetched else
            old.take index ++ (l :: rest').map (reconciledEntry fetched)) := by
        cases reassigned with
        | true => rfl
        | false =>
          simp only [if_neg Bool.false_ne_true, List.map_cons]
          rw [take_succ_set old index _ hlen, hrec, List.append_assoc]
          rfl
      rw [hleagues]
      have hops :
          (ops ++ [SessionOp.addRow (overwriteFromFetched l m), SessionOp.commitTx]) ++
            rest'.flatMap (fun x =>
              [SessionOp.addRow (reconciledEntry fetched x), SessionOp.commitTx]) =
          ops ++ (l :: rest').flatMap (fun x =>
              [SessionOp.addRow (reconciledEntry fetched x), SessionOp.commitTx]) := by
        rw [List.flatMap_cons, hrec, List.append_assoc]
      rw [hops]

/-- Helper: once some remaining entry is retired (or the cached list has
already been reassigned), a run of the `update_leagues` loop that does not
abort with `IndexError` ends with `summoner.leagues` equal to the fetched
list wholesale. -/
theorem updateLeaguesLoop_retired (fetched : List LeagueRec) :
    ∀ (rest : List LeagueRec) (index : Nat) (old : List LeagueRec) (reassigned : Bool)
      (ops : List SessionOp),
      ((∃ l ∈ rest, fetched.filter (fun r => r.leagueId == l.leagueId) = []) ∨
        reassigned = true) →
      (updateLeaguesLoop fetched rest index old reassigned ops).indexError = false →
      (updateLeaguesLoop fetched rest index old reassigned ops).leagues = fetched := by
  intro rest
  induction rest with
  | nil =>
    intro index old reassigned ops h _
    rcases h with ⟨l, hl, _⟩ | hre
    · exact absurd hl (List.not_mem_nil l)
    · simp [updateLeaguesLoop, hre]
  | cons l rest' ih =>
    intro index old reassigned ops h herr
    cases hf : fetched.filter (fun r => r.leagueId == l.leagueId) with
    | nil =>
      simp only [updateLeaguesLoop, hf] at herr ⊢
      cases hcur : (if reassigned then fetched else old)[index]? with
      | none =>
        rw [hcur] at herr
        simp at herr
      | some victim =>
        rw [hcur] at herr
        exact ih (index + 1) old true (ops ++ [SessionOp.deleteRow victim])
          (Or.inr rfl) herr
    | cons m t =>
      simp only [updateLeaguesLoop, hf] at herr ⊢
      apply ih (index + 1) (old.set index (overwriteFromFetched l m)) reassigned
        (ops ++ [SessionOp.addRow (overwriteFromFetched l m), SessionOp.commitTx]) ?_ herr
      rcases h with ⟨l2, hl2, hl2f⟩ | hre
      · rcases List.mem_cons.mp hl2 with rfl | hmem
        · rw [hf] at hl2f
          exact absurd hl2f (List.cons_ne_nil m t)
        · exact Or.inl ⟨l2, hmem, hl2f⟩
      · exact Or.inr hre

/-- C2 counterexample: with existing entries `[exSolo, exFlex]` (both league
ids absent from the fetched set) and an empty fetched set, the claim
requires both entries to be retired; instead `update_leagues` deletes only
the first entry, reassigns `summoner.leagues` to the (empty) fetched list,
and then aborts with `IndexError` when `summoner.leagues[1]` is evaluated —
the second stale entry is never removed. -/
theorem reconcile_counterexample :
    (updateLeagues [exSolo, exFlex] []).indexError = true ∧
    (updateLeagues [exSolo, exFlex] []).ops = [SessionOp.deleteRow exSolo] := by
  exact ⟨by decide, by decide⟩

/-- C2 amended: when every existing entry's league id appears in the fetched
set, each existing entry is overwritten in place (wins/losses/points from
the first fetched entry sharing its league id; league id, queue, tier and
rank unchanged), nothing is deleted and the call succeeds.  The spec's
concrete example (one trailing retired FLEX entry) does produce exactly
`[{SOLO, wins 12}]` with the FLEX row deleted.  But retirement in general
does not remove just the retired entry: the first retirement replaces the
whole cached list with the fetched list, and a further retired entry makes
`summoner.leagues[index]` index the fetched list, raising `IndexError`
when it is too short (see the counterexample). -/
theorem reconcile_amended :
    (∀ existing fetched,
      (∀ l ∈ existing,
        (leaguesAtRiot fetched).filter (fun r => r.leagueId == l.leagueId) ≠ []) →
      updateLeagues existing fetched =
        { leagues := existing.map (reconciledEntry (leaguesAtRiot fetched)),
          ops := existing.flatMap (fun l =>
            [SessionOp.addRow (reconciledEntry (leaguesAtRiot fetched) l),
             SessionOp.commitTx]),
          indexError := false }) ∧
    (∀ fetched l, (reconciledEntry fetched l).leagueId = l.leagueId ∧
        (reconciledEntry fetched l).queueType = l.queueType ∧
        (reconciledEntry fetched l).tier = l.tier ∧
        (reconciledEntry fetched l).rank = l.rank) ∧
    ((updateLeagues [exSolo, exFlex] [exSoloFetched]).leagues =
        [{ leagueId := "LS", queueType := "RANKED_SOLO_5x5", tier := "GOLD", rank := "I",
           wins := 12, losses := 4, leaguePoints := 61 }] ∧
      (updateLeagues [exSolo, exFlex] [exSoloFetched]).indexError = false ∧
      SessionOp.deleteRow exFlex ∈ (updateLeagues [exSolo, exFlex] [exSoloFetched]).ops) := by
  refine ⟨?_, reconciledEntry_identity, by decide, by decide, by decide⟩
  intro existing fetched hall
  have h := updateLeaguesLoop_all_matched (leaguesAtRiot fetched) existing 0 existing
    false [] (List.drop_zero existing) hall
  rw [updateLeagues, h]
  simp

/-- Witness for the C2 amended theorem: a single existing SOLO entry matched
by a fetched entry is overwritten in place with no deletion. -/
theorem reconcile_amended_witness :
    updateLeagues [exSolo] [exSoloFetched] =
      { leagues := [exSolo].map (reconciledEntry (leaguesAtRiot [exSoloFetched])),
        ops := [exSolo].flatMap (fun l =>
          [SessionOp.addRow (reconciledEntry (leaguesAtRiot [exSoloFetched]) l),
           SessionOp.commitTx]),
        indexError := false } := by
  exact reconcile_amended.1 [exSolo] [exSoloFetched] (by decide)

/-- C3 counterexample: with no existing entries and one fetched entry for a
newly ranked queue, the claim requires the new entry to be present after
reconciliation; `update_leagues` iterates over the (empty) existing list,
adds nothing, and the cached entry set stays empty. -/
theorem newQueue_counterexample :
    (updateLeagues [] [exNewFetched]).leagues = [] ∧
    (updateLeagues [] [exNewFetched]).indexError = false ∧
    leaguesAtRiot [exNewFetched] ≠ [] := by
  exact ⟨by decide, by decide, by decide⟩

/-- C3 amended: entries present only in the fetched set end up in the
player's cached entry set exactly when at least one existing entry is
retired during the pass (the retirement branch reassigns the whole cached
list to the fetched list, so if the pass completes the cached set equals
the fetched set); when no existing entry is retired, a fetched-only entry
(one whose league id matches no existing entry) is never added. -/
theorem newQueue_amended :
    (∀ existing fetched,
        (∃ l ∈ existing,
          (leaguesAtRiot fetched).filter (fun r => r.leagueId == l.leagueId) = []) →
        (updateLeagues existing fetched).indexError = false →
        (updateLeagues existing fetched).leagues = leaguesAtRiot fetched) ∧
    (∀ existing fetched,
        (∀ l ∈ existing,
          (leaguesAtRiot fetched).filter (fun r => r.leagueId == l.leagueId) ≠ []) →
        ∀ f ∈ leaguesAtRiot fetched, (∀ l ∈ existing, l.leagueId ≠ f.leagueId) →
          f.leagueId ∉ (updateLeagues existing fetched).leagues.map LeagueRec.leagueId) := by
  constructor
  · intro existing fetched hex herr
    exact updateLeaguesLoop_retired (leaguesAtRiot fetched) existing 0 existing false []
      (Or.inl hex) herr
  · intro existing fetched hall f _ hnone hmem
    have h := updateLeaguesLoop_all_matched (leaguesAtRiot fetched) existing 0 existing
      false [] (List.drop_zero existing) hall
    rw [updateLeagues, h] at hmem
    simp only [if_neg Bool.false_ne_true, List.take_zero, List.nil_append,
      List.map_map] at hmem
    obtain ⟨l, hl, heq⟩ := List.mem_map.mp hmem
    apply hnone l hl
    rw [← heq]
    exact ((reconciledEntry_identity (leaguesAtRiot fetched) l).1).symm

/-- Witness for the C3 amended theorem: one retired FLEX entry makes the
pass replace the cached list with the fetched list wholesale. -/
theorem newQueue_amended_witness :
    (updateLeagues [exFlex] [exSoloFetched]).leagues = leaguesAtRiot [exSoloFetched] := by
  exact newQueue_amended.1 [exFlex] [exSoloFetched] ⟨exFlex, by decide, by decide⟩ (by decide)

/-- C6: the code contradicts the spec's atomicity requirement.  With
existing entries `[exSolo, exStaleA, exStaleB]` and fetched `[exSoloFetched]`,
`update_leagues` commits the overwritten SOLO entry inside the loop (a write
committed before the diff is finished), deletes `exStaleA`, and then aborts
with `IndexError` on the third entry — leaving a committed mix of updated,
deleted and untouched entries, where the claim requires the cached set to
be exactly its old value after a mid-reconciliation failure. -/
theorem reconcile_midway_commit :
    (updateLeagues [exSolo, exStaleA, exStaleB] [exSoloFetched]).indexError = true ∧
    (updateLeagues [exSolo, exStaleA, exStaleB] [exSoloFetched]).ops =
      [SessionOp.addRow { leagueId := "LS", queueType := "RANKED_SOLO_5x5", tier := "GOLD",
                          rank := "I", wins := 12, losses := 4, leaguePoints := 61 },
       SessionOp.commitTx,
       SessionOp.deleteRow exStaleA] := by
  exact ⟨by decide, by decide⟩

/-- Helper: `create` never touches the `Match` table. -/
theorem createSummoner_matchRows (api : String → String → RiotLookup) (db : IngestDB)
    (gameName tagLine : String) :
    (createSummoner api db gameName tagLine).1.matchRows = db.matchRows := by
  cases h : api gameName tagLine with
  | notFound => simp only [createSummoner, h]
  | apiError => simp only [createSummoner, h]
  | found profile =>
    cases h2 : getSummonerByPuuid db profile.puuid with
    | some s => simp only [createSummoner, h, h2]
    | none => simp only [createSummoner, h, h2]

/-- Helper: `find_or_create` never touches the `Match` table. -/
theorem findOrCreate_matchRows (api : String → String → RiotLookup) (db : IngestDB)
    (gameName tagLine : String) :
    (findOrCreate api db gameName tagLine).1.matchRows = db.matchRows := by
  simp only [findOrCreate]
  cases getSummonerByName db gameName tagLine with
  | some s => rfl
  | none => exact createSummoner_matchRows api db gameName tagLine

/-- Helper: processing one participant never touches the `Match` table. -/
theorem ingestParticipant_matchRows (api : String → String → RiotLookup) (db : IngestDB)
    (matchRowId : Nat) (teamIds : List (Int × Option Nat)) (p : RMatchParticipant) :
    (ingestParticipant api db matchRowId teamIds p).1.matchRows = db.matchRows := by
  have hf := findOrCreate_matchRows api db p.riotIdGameName p.riotIdTagline
  simp only [ingestParticipant]
  rcases hfc : findOrCreate api db p.riotIdGameName p.riotIdTagline with ⟨db1, w1, e1⟩
  rw [hfc] at hf
  cases e1 with
  | some e => exact hf
  | none =>
    dsimp only
    cases dictGet teamIds p.teamId with
    | none => exact hf
    | some teamRowId =>
      dsimp only
      split
      · exact hf
      · exact hf

/-- Helper: the participant loop never touches the `Match` table. -/
theorem ingestParticipants_matchRows (api : String → String → RiotLookup)
    (matchRowId : Nat) (teamIds : List (Int × Option Nat)) :
    ∀ (ps : List RMatchParticipant) (db : IngestDB),
      (ingestParticipants api matchRowId teamIds db ps).1.matchRows = db.matchRows := by
  intro ps
  induction ps with
  | nil => intro db; rfl
  | cons p rest ih =>
    intro db
    have hp := ingestParticipant_matchRows api db matchRowId teamIds p
    simp only [ingestParticipants]
    rcases hpc : ingestParticipant api db matchRowId teamIds p with ⟨db1, w1, e1⟩
    rw [hpc] at hp
    cases e1 with
    | some e => exact hp
    | none =>
      rw [← hp]
      exact ih db1

/-- Helper: the team loop never touches the `Match` table. -/
theorem ingestTeams_matchRows (matchRowId : Nat) :
    ∀ (teams : List RMatchTeam) (db : IngestDB) (teamIds : List (Int × Option Nat)),
      (ingestTeams matchRowId db teamIds teams).1.matchRows = db.matchRows := by
  intro teams
  induction teams with
  | nil => intro db teamIds; rfl
  | cons t rest ih =>
    intro db teamIds
    simp only [ingestTeams]
    exact ih _ _

/-- Helper: after `ingestMatch`, the `Match` table rows are those before the
call when the match id was already present, and the old rows plus exactly
one new row carrying the payload's match id otherwise. -/
theorem ingestMatch_matchRows (api : String → String → RiotLookup) (db : IngestDB)
    (m : RiotMatch) :
    (getMatchByMatchId db m.metadata.matchId ≠ none →
      (ingestMatch api db m).1 = db ∧ (ingestMatch api db m).2 = IngestOutcome.skipped) ∧
    (getMatchByMatchId db m.metadata.matchId = none →
      ∃ newMatch : MatchRow,
        newMatch.matchId = m.metadata.matchId ∧
        (ingestMatch api db m).1.matchRows = db.matchRows ++ [newMatch]) := by
  constructor
  · intro hne
    cases hg : getMatchByMatchId db m.metadata.matchId with
    | none => exact absurd hg hne
    | some r => exact ⟨by simp only [ingestMatch, hg], by simp only [ingestMatch, hg]⟩
  · intro hg
    simp only [ingestMatch, hg]
    refine ⟨{ id := db.nextMatchId,
              matchId := m.metadata.matchId,
              platform := m.info.platformId,
              queueId := m.info.queueId,
              gameMode := m.info.gameMode,
              gameType := m.info.gameType,
              gameVersion := m.info.gameVersion,
              mapId := m.info.mapId,
              gameStart := m.info.gameCreation,
              gameEnd := m.info.gameEndTimestamp,
              gameDuration := m.info.gameDuration }, rfl, ?_⟩
    rcases ht : ingestTeams db.nextMatchId
        { db with matchRows := db.matchRows ++ [_], nextMatchId := db.nextMatchId + 1 }
        teamIdsInit m.info.teams with ⟨db2, teamIds, teamWrites⟩
    dsimp only
    rcases hp : ingestParticipants api db.nextMatchId teamIds db2 m.info.participants
      with ⟨db3, partWrites, e⟩
    have h2 := ingestTeams_matchRows db.nextMatchId m.info.teams
      { db with
        matchRows := db.matchRows ++
          [{ id := db.nextMatchId,
             matchId := m.metadata.matchId,
             platform := m.info.platformId,
             queueId := m.info.queueId,
             gameMode := m.info.gameMode,
             gameType := m.info.gameType,
             gameVersion := m.info.gameVersion,
             mapId := m.info.mapId,
             gameStart := m.info.gameCreation,
             gameEnd := m.info.gameEndTimestamp,
             gameDuration := m.info.gameDuration }],
        nextMatchId := db.nextMatchId + 1 } teamIdsInit
    rw [ht] at h2
    have h3 := ingestParticipants_matchRows api db.nextMatchId teamIds m.info.participants db2
    rw [hp] at h3
    cases e with
    | none =>
      dsimp only
      rw [h3, h2]
    | some err =>
      dsimp only
      rw [h3, h2]

/-- C1: ingesting the same match payload twice is idempotent.  Starting
from a database with no `Match` row for the payload's match id, the second
call terminates in state `skipped`, performs zero additional writes (the
database is exactly the state left by the first call), and exactly one
`Match` row with that match id exists after the first call — and hence
after the second.  This holds for every payload, every upstream-profile
oracle, and every starting database without that match id, whether the
first call ingested the match fully or failed partway after the match row
was committed. -/
theorem ingest_idempotent (api : String → String → RiotLookup) (db : IngestDB)
    (m : RiotMatch) (h0 : countMatchRows db m.metadata.matchId = 0) :
    (ingestMatch api (ingestMatch api db m).1 m).2 = IngestOutcome.skipped ∧
    (ingestMatch api (ingestMatch api db m).1 m).1 = (ingestMatch api db m).1 ∧
    countMatchRows (ingestMatch api db m).1 m.metadata.matchId = 1 := by
  simp only [countMatchRows] at h0
  rw [List.length_eq_zero] at h0
  have hnone : getMatchByMatchId db m.metadata.matchId = none := by
    simp only [getMatchByMatchId]
    rw [List.find?_eq_none]
    intro x hx hpx
    have hmem : x ∈ db.matchRows.filter (fun r => r.matchId == m.metadata.matchId) :=
      List.mem_filter.mpr ⟨hx, hpx⟩
    rw [h0] at hmem
    exact List.not_mem_nil x hmem
  obtain ⟨newMatch, hid, hrows⟩ := (ingestMatch_matchRows api db m).2 hnone
  have hpnew : (newMatch.matchId == m.metadata.matchId) = true := by
    rw [hid]
    exact beq_self_eq_true m.metadata.matchId
  have hfound : getMatchByMatchId (ingestMatch api db m).1 m.metadata.matchId ≠ none := by
    simp only [getMatchByMatchId, hrows, List.find?_append]
    simp only [getMatchByMatchId] at hnone
    rw [hnone]
    simp [List.find?_cons, hpnew]
  have hskip := (ingestMatch_matchRows api (ingestMatch api db m).1 m).1 hfound
  refine ⟨hskip.2, hskip.1, ?_⟩
  simp only [countMatchRows, hrows, List.filter_append, List.length_append, h0]
  simp [List.filter_cons, hpnew]

/-- Witness for C1 at a concrete empty database and minimal payload. -/
theorem ingest_idempotent_witness :
    countMatchRows exEmptyDB exMatch.metadata.matchId = 0 ∧
    (ingestMatch exApi (ingestMatch exApi exEmptyDB exMatch).1 exMatch).2 =
      IngestOutcome.skipped ∧
    countMatchRows (ingestMatch exApi exEmptyDB exMatch).1 exMatch.metadata.matchId = 1 := by
  refine ⟨rfl, ?_, ?_⟩
  · exact (ingest_idempotent exApi exEmptyDB exMatch rfl).1
  · exact (ingest_idempotent exApi exEmptyDB exMatch rfl).2.2

end NexusIQ
